import Mathlib

/-!
# Verification of the playout playlist scheduling core

Shallow embedding of the playlist iterator state machine of the playout
repository (`src/input/playlist.rs`), the RPC control handler
(`src/rpc/mod.rs`) and the status-file bootstrap (`src/main.rs`).

Modelling conventions:
* `f64` seconds are modelled as exact rationals `ℚ`; the code's arithmetic
  is plain `+ - * /` and comparisons, which the embedding mirrors exactly.
* Code that can panic (`unwrap`, out-of-bounds indexing, `usize` underflow
  in debug builds) is embedded in `Except String`, where `.error` marks a
  panic with its message.
* The ambient world (wall clock, filesystem, HTTP, probing, the playlist
  loader, which live outside the embedded sources) is a record of explicit
  functions `Env`; helpers that are not part of the embedded source files
  are modelled from their specified contracts and marked as such.
-/

namespace Playout

/-- Seconds, modelled as exact rationals standing in for `f64`. -/
abbrev Q := ℚ

/-- One scheduled clip (the `Media` struct of the data model). -/
structure Media where
  index : Option Nat
  source : String
  seek : Q
  out : Q
  duration : Q
  «begin» : Option Q
  category : Option String
  last_ad : Option Bool
  next_ad : Option Bool
  cmd : Option (List String)
  process : Option Bool
  filter : Option String
  deriving Repr, DecidableEq

/-- Modelled from the spec: `Media::new(index, source, false)` constructs a
clip record with the given index and source and every other attribute unset
(zero durations, no begin, no category, no flags, no command). The
constructor itself lives outside the embedded source files. -/
def Media.new (index : Nat) (source : String) : Media :=
  { index := some index
    source := source
    seek := 0
    out := 0
    duration := 0
    «begin» := none
    category := none
    last_ad := none
    next_ad := none
    cmd := none
    process := none
    filter := none }

/-- The configuration fields the embedded code reads (`GlobalConfig`).
The `unwrap()`ed options `start_sec`/`length_sec` are modelled as plain
values, matching a parsed configuration. -/
structure GlobalConfig where
  playlist_path : String
  playlist_length : String
  playlist_start_sec : Q
  playlist_length_sec : Q
  stop_threshold : Q
  sync_threshold : Q
  stat_file : String
  deriving Repr, DecidableEq

/-- The shared `PlayoutStatus` record: drift, its date, the loaded
playlist's date and the init flag. -/
structure PlayoutStatus where
  time_shift : Q
  date : String
  current_date : String
  list_init : Bool
  deriving Repr, DecidableEq

/-- A loaded playlist manifest, as the loader returns it. -/
structure Playlist where
  date : String
  current_file : Option String
  modified : Option String
  program : List Media
  deriving Repr, DecidableEq

/-- The ambient world seen by the embedded code: wall clock, filesystem,
HTTP HEAD results, source validation, probing and the playlist loader.

Modelled from the spec: these helpers (`get_sec`, `modified_time`,
`validate_source`, `add_probe`, `read_json` / `read_remote_json`) are not
part of the embedded source files; each is an opaque function of the
outside world, made explicit here.

* `httpHead url = none` models a failed HEAD request (`send()` returns
  `Err`); `some (ok, lm)` models a response with success flag `ok` and
  optional `Last-Modified` header `lm`.
* `load pathOverride seekFlag nextStart` models
  `read_json`/`read_remote_json`: the loader for the configured source,
  returning the manifest (or a dummy manifest on failure, per its
  contract). -/
structure Env where
  now : Q
  isFile : String → Bool
  modTime : String → Option String
  httpHead : String → Option (Bool × Option String)
  validSource : String → Bool
  probe : String → Option Q
  load : Option String → Bool → Q → Playlist

/-- Modelled from the spec: `validate_source` is opaque, but an empty
source is always invalid (`gen_source` treats it as the fill slot). -/
def validate_source (env : Env) (s : String) : Bool :=
  if s = "" then false else env.validSource s

/-- Modelled from the spec: `add_probe` populates `duration` from the
media probe and touches nothing else. -/
def add_probe (env : Env) (m : Media) : Media :=
  match env.probe m.source with
  | some d => { m with duration := d }
  | none => m

/-- Modelled from the spec: `add_filter` attaches the filter chain; it
changes no scheduling field. -/
def add_filter (config : GlobalConfig) (m : Media) : Media :=
  { m with filter := some ("filterchain-" ++ config.playlist_path) }

/-- Modelled from the spec: `seek_and_length source seek out duration`
builds the decoder argument vector from exactly these four values. -/
def seek_and_length (source : String) (seek out duration : Q) : List String :=
  ["-ss", toString seek, "-i", source, "-t", toString (out - seek),
   "-dur", toString duration]

/-- Modelled from the spec: `gen_dummy config len` returns the filler
source (a color+tone pattern, a non-empty string) and its command, sized
to `len` seconds. -/
def gen_dummy (config : GlobalConfig) (len : Q) : String × List String :=
  ("color=c=colortone:duration=" ++ toString len,
   ["-f", "lavfi", "-i", "color=c=colortone:duration=" ++ toString len,
    "-vf", config.playlist_path])

/-- Modelled from the spec: `DUMMY_LEN`, the default filler length in
seconds (implementation-defined; the spec names 20 s as typical). No
embedded claim depends on its value. -/
def DUMMY_LEN : Q := 20

/-- Modelled from the spec: `is_close a b tol` is `|a − b| ≤ tol`. -/
def is_close (a b tol : Q) : Bool :=
  decide (|a - b| ≤ tol)

/-- Adjust a signed offset into the half-open window
`(−L/2, L/2]`, one wrap step — the midnight-wrap adjustment the spec
gives for `get_delta`. -/
def adjust_half (L x : Q) : Q :=
  if x > L / 2 then x - L else if x ≤ -(L / 2) then x + L else x

/-- Modelled from the spec: `get_delta config ref` at wall-clock `now`
returns `(delta, total_delta)`: `delta = ref − now` adjusted into
`(−L/2, L/2]` for the midnight wrap, and `total_delta` is how many
seconds remain in today's slot — `day_start + day_length − now`, with the
midnight wrap handled at the day boundary (before the day start the
remaining time is `day_start − now`). -/
def get_delta (config : GlobalConfig) (now ref : Q) : Q × Q :=
  let L := config.playlist_length_sec
  (adjust_half L (ref - now),
   if now < config.playlist_start_sec then config.playlist_start_sec - now
   else config.playlist_start_sec + L - now)

/-- Modelled from the spec: `check_sync config delta` is false exactly when
`|delta|` exceeds the configured sync threshold (the 2× threshold
terminate side effect is outside the claims formalised here). -/
def check_sync (config : GlobalConfig) (delta : Q) : Bool :=
  decide (|delta| ≤ config.sync_threshold)

/-- `^https?://.*` of the embedded code: the string is a URL. -/
def isUrl (s : String) : Bool :=
  s.startsWith "http://" || s.startsWith "https://"

/-- `Option.unwrap`: a missing value is a panic. -/
def unwrapO (o : Option α) (msg : String) : Except String α :=
  match o with
  | some a => Except.ok a
  | none => Except.error msg

/-- `gen_source` (`playlist.rs`): a valid source gets probe, command and
filter chain; an invalid or empty source is replaced by the filler sized
to `out − seek`. -/
def gen_source (env : Env) (config : GlobalConfig) (node : Media) : Media :=
  if validate_source env node.source then
    let node := add_probe env node
    let node := { node with
      cmd := some (seek_and_length node.source node.seek node.out node.duration) }
    add_filter config node
  else
    let sc := gen_dummy config (node.out - node.seek)
    let node := { node with source := sc.1, cmd := some sc.2 }
    add_filter config node

/-- `handle_list_init` (`playlist.rs`): clamp `out` so the init clip does
not run past the remaining slot, then generate the command. -/
def handle_list_init (env : Env) (config : GlobalConfig) (node : Media) :
    Except String Media := do
  let b ← unwrapO node.«begin» "handle_list_init: begin is None"
  let total_delta := (get_delta config env.now b).2
  let out := if node.out - node.seek > total_delta then total_delta + node.seek
             else node.out
  return gen_source env config { node with out := out }

/-- `handle_list_end` (`playlist.rs`): clamp the last clip to the remaining
total time and rebuild its command. -/
def handle_list_end (node : Media) (total_delta : Q) : Media :=
  let out0 := if node.seek > 0 then node.seek + total_delta else total_delta
  let out := if out0 > node.duration then node.duration else out0
  if node.duration > total_delta ∧ total_delta > 1 ∧
      node.duration - node.seek ≥ total_delta then
    let node := { node with out := out }
    { node with
      process := some true
      cmd := some (seek_and_length node.source node.seek node.out node.duration) }
  else if node.duration > total_delta ∧ total_delta < 1 then
    let node := { node with out := out }
    { node with
      cmd := some (seek_and_length node.source node.seek node.out node.duration)
      process := some false }
  else
    { node with
      process := some true
      cmd := some (seek_and_length node.source node.seek node.out node.duration) }

/-- The mutable state of `CurrentProgram` (`playlist.rs`), plus a ghost
trace `written` of status-file writes `(date, time_shift)`, most recent
first, standing for `fs::write(stat_file, …)`. -/
structure ProgState where
  start_sec : Q
  json_mod : Option String
  json_path : Option String
  json_date : String
  nodes : List Media
  current_node : Media
  index : Nat
  stat : PlayoutStatus
  written : List (String × Q)
  deriving Repr, DecidableEq

/-- `get_current_time` (`playlist.rs`): seconds-of-day, plus a full day
when we are before the day start. -/
def get_current_time (env : Env) (config : GlobalConfig) (start_sec : Q) : Q :=
  if env.now < start_sec then env.now + config.playlist_length_sec else env.now

/-- The scan loop of `get_current_clip`: first index `i` (offset by the
accumulator) whose `begin + out − seek` exceeds `t`; unwrapping `begin`
of each visited item can panic. -/
def find_clip : List Media → Q → Nat → Except String (Option Nat)
  | [], _, _ => Except.ok none
  | m :: rest, t, i =>
    match m.«begin» with
    | none => Except.error "get_current_clip: begin is None"
    | some b =>
      if b + m.out - m.seek > t then Except.ok (some i)
      else find_clip rest t (i + 1)

/-- `get_current_clip` (`playlist.rs`): seek the current clip for the
wall clock (shifted by `time_shift` when the status date matches and the
shift is non-zero); on a hit, clear `list_init` and store the index. -/
def get_current_clip (env : Env) (config : GlobalConfig) (s : ProgState) :
    Except String ProgState := do
  let t0 := get_current_time env config s.start_sec
  let t := if s.stat.current_date = s.stat.date ∧ s.stat.time_shift ≠ 0
           then t0 + s.stat.time_shift else t0
  let r ← find_clip s.nodes t 0
  match r with
  | some i =>
    return { s with stat := { s.stat with list_init := false }, index := i }
  | none => return s

/-- `init_clip` (`playlist.rs`): find the current clip; when found, copy
it, set `seek = now − begin` and clamp it through `handle_list_init`. -/
def init_clip (env : Env) (config : GlobalConfig) (s : ProgState) :
    Except String ProgState := do
  let s ← get_current_clip env config s
  if s.stat.list_init = false then
    let time_sec := get_current_time env config s.start_sec
    let index := s.index
    let s := { s with index := s.index + 1 }
    let node ← unwrapO (s.nodes.get? index) "init_clip: index out of bounds"
    let b ← unwrapO node.«begin» "init_clip: begin is None"
    let node := { node with seek := time_sec - b }
    let cn ← handle_list_init env config node
    return { s with current_node := cn }
  else
    return s

/-- `check_update` (`playlist.rs`): reload the playlist when its source
changed; a vanished source is replaced by a single dummy node and the
iterator re-enters INIT. The two `unwrap`s of the URL branch (failed HEAD
request, missing `Last-Modified` header) are panics. -/
def check_update (env : Env) (config : GlobalConfig) (seek : Bool)
    (s : ProgState) : Except String ProgState := do
  match s.json_path with
  | none =>
    let json := env.load none seek 0
    return { s with
      json_path := json.current_file
      json_mod := json.modified
      nodes := json.program }
  | some path =>
    if env.isFile path then
      match env.modTime path with
      | some m => do
        let jm ← unwrapO s.json_mod "check_update: json_mod is None"
        if m ≠ jm then
          let json := env.load (some path) false 0
          let s := { s with json_mod := json.modified, nodes := json.program }
          let s ← get_current_clip env config s
          return { s with index := s.index + 1 }
        else
          return s
      | none => return s
    else if isUrl path then
      match env.httpHead path with
      | none => Except.error "check_update: HEAD request failed"
      | some hr => do
        if hr.1 then
          let l ← unwrapO hr.2 "check_update: Last-Modified header missing"
          let jm ← unwrapO s.json_mod "check_update: json_mod is None"
          if l ≠ jm then
            let json := env.load (some path) false 0
            let s := { s with json_mod := json.modified, nodes := json.program }
            let s ← get_current_clip env config s
            return { s with index := s.index + 1 }
          else
            return s
        else
          return s
    else
      let media0 := Media.new 0 ""
      let media := { media0 with
        «begin» := some env.now
        duration := DUMMY_LEN
        out := DUMMY_LEN }
      return { s with
        json_path := none
        nodes := [media]
        current_node := media
        stat := { s.stat with list_init := true }
        index := 0 }

/-- `check_for_next_playlist` (`playlist.rs`): decide whether the day is
over and, when it is, load the next day's playlist, zero `time_shift`,
persist the status and reset the cursor. The `len − 1` on an empty node
list is the debug-build underflow panic. -/
def check_for_next_playlist (env : Env) (config : GlobalConfig)
    (s : ProgState) : Except String ProgState := do
  let start_sec := config.playlist_start_sec
  let target_length := config.playlist_length_sec
  let dt := get_delta config env.now env.now
  let delta := dt.1
  let total_delta := dt.2
  let b ← unwrapO s.current_node.«begin» "check_for_next_playlist: begin is None"
  let duration := if s.current_node.duration > s.current_node.out
                  then s.current_node.duration else s.current_node.out
  if s.nodes.length = 0 then
    Except.error "check_for_next_playlist: empty node list"
  else
  let next_start0 := b - start_sec + duration + delta
  let next_start := if s.index = s.nodes.length - 1
                    then next_start0 + config.stop_threshold else next_start0
  if next_start ≥ target_length ∨ is_close total_delta 0 2 ∨
      is_close total_delta target_length 2 then
    let json := env.load none false next_start
    let s := { s with
      stat := { s.stat with current_date := json.date, time_shift := 0 }
      written := (json.date, 0) :: s.written
      json_path := json.current_file
      json_mod := json.modified
      json_date := json.date
      nodes := json.program
      index := 0 }
    if json.current_file = none then
      return { s with stat := { s.stat with list_init := true } }
    else
      return s
  else
    return s

/-- `last_next_ad` (`playlist.rs`): flag the current node when an
in-range neighbour is an advertisement. -/
def last_next_ad (s : ProgState) : ProgState :=
  let index := s.index
  let cn := s.current_node
  let cn := match s.nodes.get? (index + 1) with
    | some m => if m.category.getD "" = "advertisement"
                then { cn with next_ad := some true } else cn
    | none => cn
  let cn := if index > 0 ∧ index < s.nodes.length then
      match s.nodes.get? (index - 1) with
      | some m => if m.category.getD "" = "advertisement"
                  then { cn with last_ad := some true } else cn
      | none => cn
    else cn
  { s with current_node := cn }

/-- `timed_source` (`playlist.rs`): gate a candidate clip against the
schedule; skip on sync violation, emit within the 24 h window, clamp at
playlist end. `node.index.unwrap()` is evaluated lazily, as Rust `||`
does. -/
def timed_source (env : Env) (config : GlobalConfig) (node : Media)
    (last : Bool) (stat : PlayoutStatus) : Except String Media :=
  match node.«begin» with
  | none => Except.error "timed_source: begin is None"
  | some b =>
    let dt := get_delta config env.now b
    let delta := dt.1
    let total_delta := dt.2
    let new_node := { node with process := some false }
    let colon := config.playlist_length.contains ':'
    let shifted_delta :=
      if colon ∧ stat.current_date = stat.date ∧ stat.time_shift ≠ 0
      then delta - stat.time_shift else delta
    if colon ∧ check_sync config shifted_delta = false then
      Except.ok { new_node with cmd := none }
    else
      let emitCond : Except String Bool :=
        if total_delta > node.out - node.seek ∧ ¬ last then Except.ok true
        else
          match node.index with
          | none => Except.error "timed_source: index is None"
          | some idx => Except.ok (decide (idx < 2) || !colon)
      match emitCond with
      | Except.error e => Except.error e
      | Except.ok ec =>
        if ec then Except.ok { gen_source env config node with process := some true }
        else if total_delta ≤ 0 then Except.ok new_node
        else if total_delta < node.duration - node.seek ∨ last then
          Except.ok (handle_list_end node total_delta)
        else Except.ok new_node

/-- `Iterator::next` for `CurrentProgram` (`playlist.rs`): the full state
machine step, returning the emitted `Media` (the code's `Some(…)`) or a
panic. -/
def progNext (env : Env) (config : GlobalConfig) (s : ProgState) :
    Except String (ProgState × Media) := do
  if s.stat.list_init then
    let s ← check_update env config true s
    let s ← if s.json_path.isSome then init_clip env config s else pure s
    let s ←
      if s.stat.list_init then do
        let list_length := s.nodes.length
        let lastNode ← unwrapO (s.nodes.get? (list_length - 1))
            "next: node list is empty"
        let s := { s with current_node := lastNode }
        let s ← check_for_next_playlist env config s
        let new_node ← unwrapO (s.nodes.get? (list_length - 1))
            "next: index out of bounds after reload"
        let nb ← unwrapO new_node.«begin» "next: begin is None"
        let new_length := nb + new_node.duration
        if new_length ≥ config.playlist_length_sec + config.playlist_start_sec then
          init_clip env config s
        else do
          let current_time := env.now
          let total_delta := (get_delta config env.now current_time).2
          let duration := if DUMMY_LEN > total_delta then total_delta else DUMMY_LEN
          let s := if DUMMY_LEN > total_delta then
              { s with stat := { s.stat with list_init := false } } else s
          let current_time := if config.playlist_start_sec > current_time
              then current_time + config.playlist_length_sec + 1 else current_time
          let media0 := Media.new 0 ""
          let media := { media0 with
            «begin» := some current_time
            duration := duration
            out := duration }
          let cn := gen_source env config media
          let nodes := s.nodes ++ [cn]
          pure { s with current_node := cn, nodes := nodes, index := nodes.length }
      else pure s
    let s := last_next_ad s
    return (s, s.current_node)
  else if s.index < s.nodes.length then do
    let s ← check_for_next_playlist env config s
    if s.nodes.length = 0 then
      Except.error "next: node list is empty"
    else
    let is_last := s.index = s.nodes.length - 1
    let node ← unwrapO (s.nodes.get? s.index) "next: index out of bounds"
    let cn ← timed_source env config node is_last s.stat
    let s := { s with current_node := cn }
    let s := last_next_ad s
    let s := { s with index := s.index + 1 }
    let s ← check_update env config false s
    return (s, s.current_node)
  else do
    let last_playlist := s.json_path
    let last_ad := s.current_node.last_ad
    let s ← check_for_next_playlist env config s
    let total_delta := (get_delta config env.now config.playlist_start_sec).2
    if last_playlist = s.json_path ∧ |total_delta| > config.stop_threshold then
      let m0 := Media.new s.index ""
      let m1 := { m0 with «begin» := some env.now }
      let duration := if |total_delta| > DUMMY_LEN then DUMMY_LEN else |total_delta|
      let m2 := { m1 with duration := duration, out := duration }
      let cn := gen_source env config m2
      let s := { s with current_node := cn, nodes := s.nodes ++ [cn] }
      let s := last_next_ad s
      let s := { s with current_node := { s.current_node with last_ad := last_ad } }
      let s := { s with current_node := add_filter config s.current_node }
      let s := { s with index := s.index + 1 }
      return (s, s.current_node)
    else
      let s := { s with index := 0 }
      let node ← unwrapO (s.nodes.get? 0) "next: node list is empty"
      let cn := gen_source env config node
      let s := { s with current_node := cn }
      let s := last_next_ad s
      let s := { s with
        current_node := { s.current_node with last_ad := last_ad }
        index := 1 }
      return (s, s.current_node)

/-! ## RPC control handler (`rpc/mod.rs`) -/

/-- The JSON projection `get_media_map` of a media item (`rpc/mod.rs`). -/
structure MediaMap where
  seek : Q
  out : Q
  duration : Q
  category : Option String
  source : String
  deriving Repr, DecidableEq

/-- `get_media_map` (`rpc/mod.rs`). -/
def get_media_map (m : Media) : MediaMap :=
  { seek := m.seek
    out := m.out
    duration := m.duration
    category := m.category
    source := m.source }

/-- A JSON-RPC reply of the `player` method: a response object for a
control command, or a plain failure string. -/
inductive RpcResponse where
  | obj (operation : String) (shifted_seconds : Q) (media : MediaMap)
  | str (msg : String)
  deriving Repr, DecidableEq

/-- Shared state seen by the RPC handler: `PlayerControl` (list, cursor),
`PlayoutStatus` fields, the decoder handle, plus traces of the kill/wait
signals and status-file writes. -/
structure RpcState where
  current_list : List Media
  index : Nat
  time_shift : Q
  date : String
  current_date : String
  list_init : Bool
  decoder_present : Bool
  decoder_killed : Bool
  written : List (String × Q)
  deriving Repr, DecidableEq

/-- The `control: back` branch of `json_rpc_server` (`rpc/mod.rs`): guard
on `index > 1 && len > 1`, then on the decoder handle; on success read
`nodes[index − 2]` (a panic when out of bounds), decrement the cursor by
2, probe, compute the clip's delta, persist it as the new `time_shift`
and reply with the `move_to_last` object. -/
def control_back (env : Env) (config : GlobalConfig) (s : RpcState) :
    Except String (RpcState × RpcResponse) := do
  if s.index > 1 ∧ s.current_list.length > 1 then
    if s.decoder_present then
      let media ← unwrapO (s.current_list.get? (s.index - 2))
          "control back: index out of bounds"
      let s := { s with index := s.index - 2, decoder_killed := true }
      let media := add_probe env media
      let delta := (get_delta config env.now (media.«begin».getD 0)).1
      let s := { s with
        time_shift := delta
        date := s.current_date
        written := (s.current_date, delta) :: s.written }
      return (s, RpcResponse.obj "move_to_last" delta (get_media_map media))
    else
      return (s, RpcResponse.str "Move failed")
  else
    return (s, RpcResponse.str "Clip index out of range")

/-! ## Status-file bootstrap (`main.rs`) -/

/-- The two-field status record of `main.rs`. -/
structure StatusData where
  time_shift : Q
  date : String
  deriving Repr, DecidableEq

/-- What the status file looks like at startup: absent, present but
unreadable or unparsable, or parsed. -/
structure StatFileEnv where
  fileExists : Bool
  openOk : Bool
  parsed : Option StatusData
  deriving Repr, DecidableEq

/-- Result of `status_file` (`main.rs`): the updated in-memory status
pair and the record written to disk, when one was written. -/
structure StatusFileResult where
  time_shift : Q
  date : String
  wrote : Option StatusData
  deriving Repr, DecidableEq

/-- `status_file` (`main.rs`): create the file with defaults when it does
not exist; otherwise open and parse it (both `expect`s are panics) and
load its two fields into the in-memory status. -/
def status_file (fs : StatFileEnv) (time_shift0 : Q) (date0 : String) :
    Except String StatusFileResult :=
  if fs.fileExists = false then
    Except.ok { time_shift := time_shift0, date := date0
                wrote := some { time_shift := 0, date := "" } }
  else if fs.openOk = false then
    Except.error "Could not open status file"
  else
    match fs.parsed with
    | some d => Except.ok { time_shift := d.time_shift, date := d.date, wrote := none }
    | none => Except.error "Could not read status file."

/-! ## Concrete fixtures

A small concrete world used to instantiate the theorems: a bounded
24 h schedule starting 06:00 with three clips, mirroring the spec's
normal-playback scenario. -/

/-- A bounded-schedule configuration (day start 06:00, 24 h, 90 s stop
threshold). -/
def cfgA : GlobalConfig :=
  { playlist_path := "/playlists"
    playlist_length := "24:00:00"
    playlist_start_sec := 21600
    playlist_length_sec := 86400
    stop_threshold := 90
    sync_threshold := 300
    stat_file := "/tmp/status" }

/-- Build a playlist clip with the given index, source, begin, seek, out
and duration. -/
def mkClip (i : Nat) (src : String) (b seek out dur : Q) : Media :=
  { Media.new i src with
    «begin» := some b
    seek := seek
    out := out
    duration := dur }

/-- First clip of the fixture playlist: 06:00, 600 s. -/
def clip0 : Media := mkClip 0 "a.mp4" 21600 0 600 600

/-- Second clip: 06:10, 300 s. -/
def clip1 : Media := mkClip 1 "b.mp4" 22200 0 300 300

/-- Third clip: 06:15, 900 s. -/
def clip2 : Media := mkClip 2 "c.mp4" 22500 0 900 900

/-- The loaded fixture manifest. -/
def plA : Playlist :=
  { date := "2026-10-12"
    current_file := some "/p/f.json"
    modified := some "M1"
    program := [clip0, clip1, clip2] }

/-- Fixture world: 06:00:50 wall clock, the playlist file present and
unchanged, all three sources valid. -/
def envA : Env :=
  { now := 21650
    isFile := fun p => p == "/p/f.json"
    modTime := fun _ => some "M1"
    httpHead := fun _ => none
    validSource := fun s => s == "a.mp4" || s == "b.mp4" || s == "c.mp4"
    probe := fun _ => none
    load := fun _ _ _ => plA }

/-- Fixture iterator state in INIT. -/
def stA : ProgState :=
  { start_sec := 21600
    json_mod := some "M1"
    json_path := some "/p/f.json"
    json_date := "2026-10-12"
    nodes := [clip0, clip1, clip2]
    current_node := Media.new 0 ""
    index := 0
    stat := { time_shift := 0, date := "", current_date := "2026-10-12",
              list_init := true }
    written := [] }

/-- Fixture iterator state in PLAYING, cursor on the second clip. -/
def stP : ProgState :=
  { stA with
    stat := { time_shift := 0, date := "", current_date := "2026-10-12",
              list_init := false }
    current_node := clip0
    index := 1 }

/-- Fixture world at 06:10:00 (the second clip's begin). -/
def envP : Env := { envA with now := 22200 }

/-- Fixture state with the playlist exhausted (cursor past the end). -/
def stE : ProgState := { stP with index := 3, current_node := clip2 }

/-- Fixture world at 06:31:40, long before the day ends. -/
def envE : Env := { envA with now := 23500 }

/-- Fixture state whose playlist file has vanished (the stored path is
neither a file nor a URL). -/
def stV : ProgState := { stP with json_path := some "/gone.json" }

/-- Fixture state whose playlist source is an HTTP URL. -/
def stU : ProgState := { stP with json_path := some "http://ex/p.json" }

/-- Fixture world where the URL answers the HEAD request successfully but
without a `Last-Modified` header. -/
def envU : Env :=
  { envP with isFile := fun _ => false, httpHead := fun _ => some (true, none) }

/-- Fixture world where the HEAD request itself fails. -/
def envUfail : Env := { envU with httpHead := fun _ => none }

/-- A clip for exercising `handle_list_end`: seek 0, out 5, duration 10. -/
def c5node : Media := mkClip 5 "x.mp4" 30000 0 5 10

/-- Fixture RPC state: three clips, cursor 2, decoder alive. -/
def rsA : RpcState :=
  { current_list := [clip0, clip1, clip2]
    index := 2
    time_shift := 0
    date := ""
    current_date := "2026-10-12"
    list_init := false
    decoder_present := true
    decoder_killed := false
    written := [] }

/-- Fixture state on the last clip of the day (cursor 2). -/
def stC3 : ProgState := { stP with index := 2, current_node := clip2 }

/-- Fixture world one second before the day start: `total_delta = 1`, so
the rollover condition `|total_delta| ≤ 2` holds. -/
def envC3 : Env := { envA with now := 21599 }

/-! ## Helper lemmas -/

/-- When the stored path is a file whose modification time equals the
stored token, `check_update` is the identity. -/
theorem check_update_unchanged (env : Env) (config : GlobalConfig) (seek : Bool)
    (s : ProgState) (p m : String)
    (hp : s.json_path = some p) (hf : env.isFile p = true)
    (hm : env.modTime p = some m) (hjm : s.json_mod = some m) :
    check_update env config seek s = Except.ok s := by
  simp [check_update, hp, hf, hm, hjm, unwrapO, Bind.bind, Except.bind,
    pure, Except.pure]

/-- `gen_source` never changes the scheduling fields `seek` and `out`. -/
theorem gen_source_seek_out (env : Env) (config : GlobalConfig) (n : Media) :
    (gen_source env config n).seek = n.seek ∧ (gen_source env config n).out = n.out := by
  cases hpr : env.probe n.source <;>
    by_cases hv : validate_source env n.source = true <;>
      simp [gen_source, add_probe, add_filter, hv, hpr]

/-- `last_next_ad` only decorates the current node's neighbour-ad flags. -/
theorem last_next_ad_shape (s : ProgState) :
    ∃ la na, last_next_ad s =
      { s with current_node :=
          { s.current_node with last_ad := la, next_ad := na } } := by
  unfold last_next_ad
  cases h1 : s.nodes.get? (s.index + 1) with
  | none =>
    simp only [h1]
    by_cases hi : s.index > 0 ∧ s.index < s.nodes.length
    · simp only [hi, if_true]
      cases h2 : s.nodes.get? (s.index - 1) with
      | none => exact ⟨s.current_node.last_ad, s.current_node.next_ad, rfl⟩
      | some m2 =>
        by_cases hc2 : m2.category.getD "" = "advertisement"
        · simp only [hc2, if_true]
          exact ⟨some true, s.current_node.next_ad, rfl⟩
        · simp only [hc2, if_false]
          exact ⟨s.current_node.last_ad, s.current_node.next_ad, rfl⟩
    · simp only [hi, if_false]
      exact ⟨s.current_node.last_ad, s.current_node.next_ad, rfl⟩
  | some m1 =>
    simp only [h1]
    by_cases hc1 : m1.category.getD "" = "advertisement" <;>
      simp only [hc1, if_true, if_false] <;>
      [skip; skip] <;>
      (by_cases hi : s.index > 0 ∧ s.index < s.nodes.length
       · simp only [hi, if_true]
         cases h2 : s.nodes.get? (s.index - 1) with
         | none => exact ⟨_, _, rfl⟩
         | some m2 =>
           by_cases hc2 : m2.category.getD "" = "advertisement" <;>
             simp only [hc2, if_true, if_false] <;> exact ⟨_, _, rfl⟩
       · simp only [hi, if_false]
         exact ⟨_, _, rfl⟩)

/-- The scan of `get_current_clip` returns the first qualifying index:
if item `i` satisfies `begin + out − seek > t` and every earlier item has
a begin and fails the test, the scan from accumulator `k` yields `k + i`. -/
theorem find_clip_finds (t : Q) (l : List Media) :
    ∀ (i k : Nat) (node : Media) (bi : Q),
    l.get? i = some node → node.«begin» = some bi →
    bi + node.out - node.seek > t →
    (∀ j, j < i → ∃ nj bj, l.get? j = some nj ∧ nj.«begin» = some bj ∧
      ¬ (bj + nj.out - nj.seek > t)) →
    find_clip l t k = Except.ok (some (k + i)) := by
  induction l with
  | nil =>
    intro i k node bi hget _ _ _
    simp at hget
  | cons hd tl ih =>
    intro i k node bi hget hbi hgt hmin
    cases i with
    | zero =>
      have hhd : hd = node := by simpa using hget
      subst hhd
      simp [find_clip, hbi, hgt]
    | succ i' =>
      obtain ⟨n0, b0, hg0, hb0, hn0⟩ := hmin 0 (Nat.succ_pos _)
      have hhd : hd = n0 := by simpa using hg0
      subst hhd
      have hget' : tl.get? i' = some node := by simpa using hget
      have hmin' : ∀ j, j < i' → ∃ nj bj, tl.get? j = some nj ∧
          nj.«begin» = some bj ∧ ¬ (bj + nj.out - nj.seek > t) := by
        intro j hj
        obtain ⟨nj, bj, hgj, hbj, hnj⟩ := hmin (j + 1) (Nat.succ_lt_succ hj)
        exact ⟨nj, bj, by simpa using hgj, hbj, hnj⟩
      have hrec := ih i' (k + 1) node bi hget' hbi hgt hmin'
      have hk : k + 1 + i' = k + (i' + 1) := by omega
      rw [hk] at hrec
      simp [find_clip, hb0, hn0, hrec]

/-- `handle_list_init` keeps `seek`, and clamps `out` so that
`out − seek` never exceeds the remaining slot `total_delta`. -/
theorem handle_list_init_clamps (env : Env) (config : GlobalConfig)
    (node : Media) (b : Q) (hb : node.«begin» = some b) :
    ∃ m, handle_list_init env config node = Except.ok m ∧
      m.seek = node.seek ∧
      m.out - m.seek ≤ (get_delta config env.now b).2 ∧
      m.out ≤ node.out := by
  simp only [handle_list_init, hb, unwrapO, Bind.bind, Except.bind]
  set td := (get_delta config env.now b).2 with htd
  by_cases hcl : node.out - node.seek > td
  · rw [if_pos hcl]
    refine ⟨_, rfl, ?_, ?_, ?_⟩
    · exact (gen_source_seek_out env config _).1
    · rw [(gen_source_seek_out env config _).1, (gen_source_seek_out env config _).2]
      simp
    · rw [(gen_source_seek_out env config _).2]
      simp only
      linarith
  · rw [if_neg hcl]
    refine ⟨_, rfl, ?_, ?_, ?_⟩
    · exact (gen_source_seek_out env config _).1
    · rw [(gen_source_seek_out env config _).1, (gen_source_seek_out env config _).2]
      simp only
      linarith [not_lt.mp hcl]
    · rw [(gen_source_seek_out env config _).2]

/-! ## Claims -/

/-- **C10**: at startup, `status_file` writes the default status
(`time_shift = 0`, `date = ""`) only when the status file does not exist;
when the file exists but its JSON does not parse into the two-field
status record, the process panics with "Could not read status file."
instead of rewriting defaults and continuing. -/
theorem c10_status_file_default_or_panic (fs : StatFileEnv) (t0 : Q) (d0 : String) :
    (fs.fileExists = false →
      status_file fs t0 d0 =
        Except.ok { time_shift := t0
                    date := d0
                    wrote := some { time_shift := 0, date := "" } }) ∧
    (∀ r, status_file fs t0 d0 = Except.ok r → r.wrote ≠ none →
      fs.fileExists = false) ∧
    (fs.fileExists = true → fs.openOk = true → fs.parsed = none →
      status_file fs t0 d0 = Except.error "Could not read status file.") := by
  refine ⟨?_, ?_, ?_⟩
  · intro h
    simp [status_file, h]
  · intro r hr hw
    by_cases h : fs.fileExists = false
    · exact h
    · exfalso
      simp only [Bool.not_eq_false] at h
      by_cases ho : fs.openOk = false
      · simp [status_file, h, ho] at hr
      · simp only [Bool.not_eq_false] at ho
        cases hp : fs.parsed with
        | none => simp [status_file, h, ho, hp] at hr
        | some d =>
          simp [status_file, h, ho, hp] at hr
          rw [← hr] at hw
          exact hw rfl
  · intro h ho hp
    simp [status_file, h, ho, hp]

/-- Witness for C10 at a concrete world: an absent file gets the default
record written, and an existing unparsable file is the read panic. -/
theorem c10_witness :
    (status_file { fileExists := false, openOk := true, parsed := none } 7 "d" =
      Except.ok { time_shift := 7
                  date := "d"
                  wrote := some { time_shift := 0, date := "" } }) ∧
    (status_file { fileExists := true, openOk := true, parsed := none } 7 "d" =
      Except.error "Could not read status file.") :=
  ⟨(c10_status_file_default_or_panic
      { fileExists := false, openOk := true, parsed := none } 7 "d").1 rfl,
   (c10_status_file_default_or_panic
      { fileExists := true, openOk := true, parsed := none } 7 "d").2.2 rfl rfl rfl⟩

/-- **C7**: when `json_path` is set, points at an existing local file and
that file's modification time equals the stored `json_mod`, `check_update`
leaves the whole iterator state unchanged; hence two consecutive such
calls are a no-op. -/
theorem c7_check_update_idempotent (env : Env) (config : GlobalConfig)
    (seek : Bool) (s : ProgState) (p m : String)
    (hp : s.json_path = some p) (hf : env.isFile p = true)
    (hm : env.modTime p = some m) (hjm : s.json_mod = some m) :
    check_update env config seek s = Except.ok s ∧
    (check_update env config seek s).bind
      (fun s1 => check_update env config seek s1) = Except.ok s := by
  have h := check_update_unchanged env config seek s p m hp hf hm hjm
  refine ⟨h, ?_⟩
  rw [h]
  simpa [Except.bind] using h

/-- Witness for C7: the fixture state with its unchanged playlist file. -/
theorem c7_witness :
    check_update envA cfgA true stA = Except.ok stA ∧
    (check_update envA cfgA true stA).bind
      (fun s1 => check_update envA cfgA true s1) = Except.ok stA :=
  c7_check_update_idempotent envA cfgA true stA "/p/f.json" "M1"
    rfl (by decide) rfl rfl

/-- **C5 counterexample**: at `total_delta = 1` (with `c5node.seek = 0`,
`out = 5`, `duration = 10`) the claim's hypothesis
`total_delta < duration − seek` holds, yet `handle_list_end` leaves
`out = 5` instead of clamping it to `total_delta` capped at `duration`,
i.e. `min 1 10 = 1`. -/
theorem c5_counterexample :
    (1 : Q) < c5node.duration - c5node.seek ∧
    ¬ c5node.seek > 0 ∧
    min (1 : Q) c5node.duration = 1 ∧
    (handle_list_end c5node 1).out = 5 := by
  refine ⟨by norm_num [c5node, mkClip, Media.new], by norm_num [c5node, mkClip, Media.new],
    by norm_num [c5node, mkClip, Media.new], ?_⟩
  rfl

/-- **C5** (amended): `handle_list_end node total_delta` clamps `out` to
`seek + total_delta` (`total_delta` when `seek = 0`), capped at
`duration`, in exactly two cases: when `duration > total_delta`,
`total_delta > 1` and `duration − seek ≥ total_delta` (this includes the
boundary `total_delta = duration − seek` when `seek > 0`) the clamped
node is emitted with `process = Some(true)`; when
`duration > total_delta` and `total_delta < 1` it is emitted with
`process = Some(false)`. In every other case — i.e. whenever neither
condition holds, such as `total_delta = 1` or `duration ≤ total_delta` —
`out` is left unchanged and `process = Some(true)`. The decoder command
is rebuilt from the final `out` in all cases. -/
theorem c5_handle_list_end_clamp (node : Media) (td : Q) :
    (node.duration > td → td > 1 → node.duration - node.seek ≥ td →
      handle_list_end node td =
        { node with
          out := min (if node.seek > 0 then node.seek + td else td) node.duration
          process := some true
          cmd := some (seek_and_length node.source node.seek
            (min (if node.seek > 0 then node.seek + td else td) node.duration)
            node.duration) }) ∧
    (node.duration > td → td < 1 →
      handle_list_end node td =
        { node with
          out := min (if node.seek > 0 then node.seek + td else td) node.duration
          process := some false
          cmd := some (seek_and_length node.source node.seek
            (min (if node.seek > 0 then node.seek + td else td) node.duration)
            node.duration) }) ∧
    (¬ (node.duration > td ∧ td > 1 ∧ node.duration - node.seek ≥ td) →
      ¬ (node.duration > td ∧ td < 1) →
      handle_list_end node td =
        { node with
          process := some true
          cmd := some (seek_and_length node.source node.seek node.out
            node.duration) }) := by
  have hout : (if (if node.seek > 0 then node.seek + td else td) > node.duration
      then node.duration else (if node.seek > 0 then node.seek + td else td)) =
      min (if node.seek > 0 then node.seek + td else td) node.duration := by
    rcases le_or_lt (if node.seek > 0 then node.seek + td else td) node.duration
      with h | h
    · rw [if_neg (not_lt.2 h), min_eq_left h]
    · rw [if_pos h, min_eq_right h.le]
  refine ⟨?_, ?_, ?_⟩
  · intro h1 h2 h3
    have hcond : node.duration > td ∧ td > 1 ∧ node.duration - node.seek ≥ td :=
      ⟨h1, h2, h3⟩
    simp only [handle_list_end, hout, if_pos hcond]
  · intro h1 h2
    have hcond : ¬ (node.duration > td ∧ td > 1 ∧
        node.duration - node.seek ≥ td) := by
      rintro ⟨-, c2, -⟩
      linarith
    have hcond2 : node.duration > td ∧ td < 1 := ⟨h1, h2⟩
    simp only [handle_list_end, hout, if_neg hcond, if_pos hcond2]
  · intro hA hB
    simp only [handle_list_end, hout, if_neg hA, if_neg hB]

/-- Witness for C5 at a concrete clip (seek 2, out 8, duration 10),
applied with `total_delta = 8` — exactly the boundary
`total_delta = duration − seek`, where the first branch fires and clamps
`out` to `min (2 + 8) 10 = 10`. -/
theorem c5_witness :
    ((mkClip 7 "w.mp4" 100 2 8 10).duration > (8 : Q) → (8 : Q) > 1 →
      (mkClip 7 "w.mp4" 100 2 8 10).duration -
        (mkClip 7 "w.mp4" 100 2 8 10).seek ≥ (8 : Q) →
      handle_list_end (mkClip 7 "w.mp4" 100 2 8 10) 8 =
        { mkClip 7 "w.mp4" 100 2 8 10 with
          out := min (if (mkClip 7 "w.mp4" 100 2 8 10).seek > 0
            then (mkClip 7 "w.mp4" 100 2 8 10).seek + 8 else 8)
            (mkClip 7 "w.mp4" 100 2 8 10).duration
          process := some true
          cmd := some (seek_and_length (mkClip 7 "w.mp4" 100 2 8 10).source
            (mkClip 7 "w.mp4" 100 2 8 10).seek
            (min (if (mkClip 7 "w.mp4" 100 2 8 10).seek > 0
              then (mkClip 7 "w.mp4" 100 2 8 10).seek + 8 else 8)
              (mkClip 7 "w.mp4" 100 2 8 10).duration)
            (mkClip 7 "w.mp4" 100 2 8 10).duration) }) ∧
    handle_list_end (mkClip 7 "w.mp4" 100 2 8 10) 8 =
      { mkClip 7 "w.mp4" 100 2 8 10 with
        out := (10 : Q)
        process := some true
        cmd := some (seek_and_length "w.mp4" 2 10 10) } :=
  ⟨(c5_handle_list_end_clamp (mkClip 7 "w.mp4" 100 2 8 10) 8).1,
   ((c5_handle_list_end_clamp (mkClip 7 "w.mp4" 100 2 8 10) 8).1
      (by norm_num [mkClip, Media.new]) (by norm_num)
      (by norm_num [mkClip, Media.new])).trans
     (by with_unfolding_all rfl)⟩

/-- **C2**: for every node passed to `timed_source`: when the configured
playlist length contains a colon and `check_sync` on the
`time_shift`-adjusted delta fails, the result keeps the node with
`cmd = None` and `process = Some(false)`; otherwise, when
(`total_delta > out − seek` and the node is not last), or
`node.index < 2`, or the playlist length contains no colon, the result is
`gen_source` of the node with `process = Some(true)`. -/
theorem c2_timed_source_gate (env : Env) (config : GlobalConfig) (node : Media)
    (last : Bool) (stat : PlayoutStatus) (b : Q) (hb : node.«begin» = some b) :
    (config.playlist_length.contains ':' = true →
      check_sync config
        (if stat.current_date = stat.date ∧ stat.time_shift ≠ 0
         then (get_delta config env.now b).1 - stat.time_shift
         else (get_delta config env.now b).1) = false →
      timed_source env config node last stat =
        Except.ok { node with process := some false, cmd := none }) ∧
    (∀ idx, node.index = some idx →
      (config.playlist_length.contains ':' = true →
        check_sync config
          (if stat.current_date = stat.date ∧ stat.time_shift ≠ 0
           then (get_delta config env.now b).1 - stat.time_shift
           else (get_delta config env.now b).1) = true) →
      (((get_delta config env.now b).2 > node.out - node.seek ∧ last = false) ∨
        idx < 2 ∨ config.playlist_length.contains ':' = false) →
      timed_source env config node last stat =
        Except.ok { gen_source env config node with process := some true }) := by
  constructor
  · intro hc hsync
    have hfail2 : check_sync config
        (if config.playlist_length.contains ':' = true ∧
            stat.current_date = stat.date ∧ stat.time_shift ≠ 0
         then (get_delta config env.now b).1 - stat.time_shift
         else (get_delta config env.now b).1) = false := by
      simpa [hc] using hsync
    simp only [timed_source, hb]
    rw [if_pos ⟨hc, hfail2⟩]
  · intro idx hidx hsync hcond
    have hnotfail : ¬ (config.playlist_length.contains ':' = true ∧
        check_sync config
          (if config.playlist_length.contains ':' = true ∧
              stat.current_date = stat.date ∧ stat.time_shift ≠ 0
           then (get_delta config env.now b).1 - stat.time_shift
           else (get_delta config env.now b).1) = false) := by
      rintro ⟨hc, hfail⟩
      simp only [hc, eq_self_iff_true, true_and] at hfail
      rw [hsync hc] at hfail
      simp at hfail
    simp only [timed_source, hb]
    rw [if_neg hnotfail]
    by_cases hfirst : (get_delta config env.now b).2 > node.out - node.seek ∧
        ¬ last = true
    · rw [if_pos hfirst]
      rfl
    · rw [if_neg hfirst, hidx]
      have hec : (decide (idx < 2) || !config.playlist_length.contains ':') = true := by
        rcases hcond with h1 | h2 | h3
        · exact absurd ⟨h1.1, by simp [h1.2]⟩ hfirst
        · simp [h2]
        · simp [h3]
      simp [hec]

set_option maxRecDepth 1000000 in
/-- Witness for C2: the fixture's second clip (`index = 1 < 2`) is emitted
through `gen_source` with `process = Some(true)`. -/
theorem c2_witness :
    clip1.«begin» = some 22200 ∧
    timed_source envP cfgA clip1 false stP.stat =
      Except.ok { gen_source envP cfgA clip1 with process := some true } :=
  ⟨rfl,
   (c2_timed_source_gate envP cfgA clip1 false stP.stat 22200 rfl).2 1 rfl
     (fun _ => by with_unfolding_all decide)
     (Or.inr (Or.inl (by decide)))⟩

/-- **C8**: the RPC control command "back" succeeds only when
`index > 1`, `len(nodes) > 1` and the decoder handle is present; on
success it kills and waits the decoder, reads `nodes[index − 2]`,
decrements the index by 2, sets `time_shift` to the delta of that clip's
begin, sets the status date to `current_date`, persists the status and
returns the `move_to_last` object with the shifted seconds and the media
map. -/
theorem c8_control_back_rpc (env : Env) (config : GlobalConfig) (s : RpcState)
    (m : Media) :
    (1 < s.index → 1 < s.current_list.length → s.decoder_present = true →
      s.current_list.get? (s.index - 2) = some m →
      control_back env config s =
        Except.ok
          ({ s with
              index := s.index - 2
              decoder_killed := true
              time_shift := (get_delta config env.now
                ((add_probe env m).«begin».getD 0)).1
              date := s.current_date
              written := (s.current_date,
                (get_delta config env.now ((add_probe env m).«begin».getD 0)).1)
                :: s.written },
           RpcResponse.obj "move_to_last"
             (get_delta config env.now ((add_probe env m).«begin».getD 0)).1
             (get_media_map (add_probe env m)))) ∧
    (1 < s.index → 1 < s.current_list.length → s.decoder_present = false →
      control_back env config s = Except.ok (s, RpcResponse.str "Move failed")) ∧
    (¬ (1 < s.index ∧ 1 < s.current_list.length) →
      control_back env config s =
        Except.ok (s, RpcResponse.str "Clip index out of range")) := by
  refine ⟨?_, ?_, ?_⟩
  · intro h1 h2 hd hm
    simp only [control_back]
    rw [if_pos ⟨h1, h2⟩, hd]
    simp only [if_true, unwrapO, hm, Bind.bind, Except.bind, pure, Except.pure]
  · intro h1 h2 hd
    simp only [control_back]
    rw [if_pos ⟨h1, h2⟩, hd]
    simp [pure, Except.pure]
  · intro h
    simp only [control_back]
    rw [if_neg h]
    rfl

/-- Witness for C8: the fixture RPC state (cursor 2, three clips, decoder
alive) moved back onto the first clip. -/
theorem c8_witness :
    control_back envP cfgA rsA =
      Except.ok
        ({ rsA with
            index := rsA.index - 2
            decoder_killed := true
            time_shift := (get_delta cfgA envP.now
              ((add_probe envP clip0).«begin».getD 0)).1
            date := rsA.current_date
            written := (rsA.current_date,
              (get_delta cfgA envP.now ((add_probe envP clip0).«begin».getD 0)).1)
              :: rsA.written },
         RpcResponse.obj "move_to_last"
           (get_delta cfgA envP.now ((add_probe envP clip0).«begin».getD 0)).1
           (get_media_map (add_probe envP clip0))) :=
  (c8_control_back_rpc envP cfgA rsA clip0).1 (by decide) (by decide) rfl rfl

/-- **C3**: `check_for_next_playlist` computes
`next_start = begin − day_start + max(out, duration) + delta`, adds
`stop_threshold` when the current index is the last of the list, and loads
the next day's playlist exactly when `next_start ≥ day_length` or
`|total_delta| ≤ 2` or `|total_delta − day_length| ≤ 2`; on firing it
writes the status (`time_shift = 0`, new date), zeroes the in-memory
`time_shift`, replaces the nodes with the new program, resets the index to
0 and sets `list_init = true` iff the new playlist's `current_file` is
absent. -/
theorem c3_check_for_next_playlist_fires (env : Env) (config : GlobalConfig)
    (s : ProgState) (b delta total_delta next_start : Q) (json : Playlist)
    (hb : s.current_node.«begin» = some b)
    (hne : s.nodes ≠ [])
    (hLI : s.stat.list_init = false)
    (hdelta : delta = (get_delta config env.now env.now).1)
    (htd : total_delta = (get_delta config env.now env.now).2)
    (hns : next_start = b - config.playlist_start_sec +
      max s.current_node.out s.current_node.duration + delta +
      (if s.index = s.nodes.length - 1 then config.stop_threshold else 0))
    (hjson : json = env.load none false next_start) :
    ((next_start ≥ config.playlist_length_sec ∨ |total_delta| ≤ 2 ∨
        |total_delta - config.playlist_length_sec| ≤ 2) →
      check_for_next_playlist env config s =
        Except.ok { s with
          stat := { s.stat with
            current_date := json.date
            time_shift := 0
            list_init := json.current_file.isNone }
          written := (json.date, 0) :: s.written
          json_path := json.current_file
          json_mod := json.modified
          json_date := json.date
          nodes := json.program
          index := 0 }) ∧
    (¬ (next_start ≥ config.playlist_length_sec ∨ |total_delta| ≤ 2 ∨
        |total_delta - config.playlist_length_sec| ≤ 2) →
      check_for_next_playlist env config s = Except.ok s) := by
  have hlen : ¬ (s.nodes.length = 0) := fun h => hne (List.length_eq_zero.mp h)
  have hmax : (if s.current_node.duration > s.current_node.out
      then s.current_node.duration else s.current_node.out) =
      max s.current_node.out s.current_node.duration := by
    rcases le_or_lt s.current_node.duration s.current_node.out with h | h
    · rw [if_neg (not_lt.2 h), max_eq_left h]
    · rw [if_pos h, max_eq_right h.le]
  have hclose0 : is_close total_delta 0 2 = true ↔ |total_delta| ≤ 2 := by
    simp [is_close]
  have hcloseL : is_close total_delta config.playlist_length_sec 2 = true ↔
      |total_delta - config.playlist_length_sec| ≤ 2 := by
    simp [is_close]
  simp only [check_for_next_playlist, hb, unwrapO, Bind.bind, Except.bind,
    hmax]
  rw [if_neg hlen]
  rw [← hdelta, ← htd]
  have hite : (if s.index = s.nodes.length - 1
      then b - config.playlist_start_sec +
        max s.current_node.out s.current_node.duration + delta +
        config.stop_threshold
      else b - config.playlist_start_sec +
        max s.current_node.out s.current_node.duration + delta) = next_start := by
    rw [hns]
    split
    · ring
    · ring
  rw [hite, ← hjson]
  constructor
  · intro hcond
    have hcond2 : next_start ≥ config.playlist_length_sec ∨
        is_close total_delta 0 2 = true ∨
        is_close total_delta config.playlist_length_sec 2 = true := by
      rcases hcond with h | h | h
      · exact Or.inl h
      · exact Or.inr (Or.inl (hclose0.mpr h))
      · exact Or.inr (Or.inr (hcloseL.mpr h))
    rw [if_pos hcond2]
    cases hcf : json.current_file with
    | none => simp [hcf, pure, Except.pure]
    | some f => simp [hcf, hLI, pure, Except.pure]
  · intro hcond
    have hcond2 : ¬ (next_start ≥ config.playlist_length_sec ∨
        is_close total_delta 0 2 = true ∨
        is_close total_delta config.playlist_length_sec 2 = true) := by
      rintro (h | h | h)
      · exact hcond (Or.inl h)
      · exact hcond (Or.inr (Or.inl (hclose0.mp h)))
      · exact hcond (Or.inr (Or.inr (hcloseL.mp h)))
    rw [if_neg hcond2]
    rfl

set_option maxRecDepth 1000000 in
/-- Witness for C3: one second before the day start (`total_delta = 1`)
the rollover fires and installs the loaded playlist with a reset cursor
and a written status record. -/
theorem c3_witness :
    check_for_next_playlist envC3 cfgA stC3 =
      Except.ok { stC3 with
        stat := { stC3.stat with
          current_date := plA.date
          time_shift := 0
          list_init := plA.current_file.isNone }
        written := (plA.date, 0) :: stC3.written
        json_path := plA.current_file
        json_mod := plA.modified
        json_date := plA.date
        nodes := plA.program
        index := 0 } :=
  (c3_check_for_next_playlist_fires envC3 cfgA stC3 22500 0 1 1890 plA
      rfl (by decide) rfl
      (by with_unfolding_all decide)
      (by with_unfolding_all decide)
      (by with_unfolding_all decide)
      rfl).1
    (Or.inr (Or.inl (by with_unfolding_all decide)))

/-- **C1**: on a `next()` call in the INIT state (`list_init` true) with a
playlist present (and the playlist file unchanged), `get_current_clip`
selects the first index `i` whose `begin + out − seek` exceeds the current
seconds-of-day `t` (which includes `time_shift` when `current_date` equals
the status date and the shift is non-zero), clears `list_init`, and
`init_clip` emits a copy of that node whose `seek` equals `now_sec − begin`
(`now_sec = t0`, the unshifted current time), clamped by
`handle_list_init` so that `out − seek` does not exceed the remaining
slot. -/
theorem c1_init_emits_first_current_clip (env : Env) (config : GlobalConfig)
    (s : ProgState) (p mstr : String) (i : Nat) (node : Media) (bi t0 t : Q)
    (hLI : s.stat.list_init = true)
    (hp : s.json_path = some p) (hf : env.isFile p = true)
    (hm : env.modTime p = some mstr) (hjm : s.json_mod = some mstr)
    (hget : s.nodes.get? i = some node) (hbi : node.«begin» = some bi)
    (ht0 : t0 = get_current_time env config s.start_sec)
    (ht : t = (if s.stat.current_date = s.stat.date ∧ s.stat.time_shift ≠ 0
      then t0 + s.stat.time_shift else t0))
    (hgt : bi + node.out - node.seek > t)
    (hmin : ∀ j, j < i → ∃ nj bj, s.nodes.get? j = some nj ∧
      nj.«begin» = some bj ∧ ¬ (bj + nj.out - nj.seek > t)) :
    ∃ s' m, progNext env config s = Except.ok (s', m) ∧
      s'.stat.list_init = false ∧ s'.index = i + 1 ∧
      m.seek = t0 - bi ∧
      m.out - m.seek ≤ (get_delta config env.now bi).2 := by
  have hcu := check_update_unchanged env config true s p mstr hp hf hm hjm
  have hfc : find_clip s.nodes t 0 = Except.ok (some i) := by
    simpa using find_clip_finds t s.nodes i 0 node bi hget hbi hgt hmin
  have hgcc : get_current_clip env config s =
      Except.ok { s with
        stat := { s.stat with list_init := false }
        index := i } := by
    simp only [get_current_clip]
    rw [← ht0, ← ht, hfc]
    rfl
  obtain ⟨mI, hmI, hseekI, hleI, houtI⟩ :=
    handle_list_init_clamps env config { node with seek := t0 - bi } bi hbi
  rw [hbi] at hmI
  have hic : init_clip env config s =
      Except.ok { s with
        stat := { s.stat with list_init := false }
        index := i + 1
        current_node := mI } := by
    simp only [init_clip, hgcc, Bind.bind, Except.bind]
    rw [← ht0]
    simp only [unwrapO, hget, hbi, Bind.bind, Except.bind, if_true, hmI]
    rfl
  obtain ⟨la, na, hlna⟩ := last_next_ad_shape
    { s with
      stat := { s.stat with list_init := false }
      index := i + 1
      current_node := mI }
  refine ⟨{ s with
      stat := { s.stat with list_init := false }
      index := i + 1
      current_node := { mI with last_ad := la, next_ad := na } },
    { mI with last_ad := la, next_ad := na }, ?_, rfl, rfl, hseekI, hleI⟩
  simp only [progNext, hLI, if_true, hcu, Bind.bind, Except.bind, pure,
    Except.pure, hp, Option.isSome_some, hic]
  have h2 := congrArg (fun z : ProgState =>
    (Except.ok (z, z.current_node) : Except String (ProgState × Media))) hlna
  simpa [hp] using h2

set_option maxRecDepth 1000000 in
/-- Witness for C1: the fixture at 06:00:50 (spec scenario 1) emits the
first clip with `seek = 50` and clears INIT. -/
theorem c1_witness :
    ∃ s' m, progNext envA cfgA stA = Except.ok (s', m) ∧
      s'.stat.list_init = false ∧ s'.index = 0 + 1 ∧
      m.seek = 21650 - 21600 ∧
      m.out - m.seek ≤ (get_delta cfgA envA.now 21600).2 :=
  c1_init_emits_first_current_clip envA cfgA stA "/p/f.json" "M1" 0 clip0
    21600 21650 21650 rfl rfl (by decide) rfl rfl rfl rfl
    (by decide) (by decide)
    (by with_unfolding_all decide)
    (fun j hj => absurd hj (Nat.not_lt_zero j))

/-- **C6 counterexample**: in the PLAYING in-range branch the
`check_update(false)` call that follows the index increment *can* alter
the returned item: with the playlist path vanished (`stV`), `next()`
returns the dummy installed by `check_update` (empty source, `DUMMY_LEN`
long), not the item that `timed_source` built from `nodes[1]` (source
"b.mp4"). -/
theorem c6_counterexample :
    stV.stat.list_init = false ∧
    stV.index = 1 ∧ stV.nodes.get? 1 = some clip1 ∧
    ((progNext envP cfgA stV).toOption.map (fun pr => pr.2.source) = some "") ∧
    ((timed_source envP cfgA clip1 false stV.stat).toOption.map
      (fun m => m.source) = some "b.mp4") := by
  refine ⟨rfl, rfl, rfl, ?_, ?_⟩
  · with_unfolding_all rfl
  · with_unfolding_all rfl

/-- **C6** (amended): in the PLAYING in-range branch (`list_init` false,
`index < len(nodes)`), when the playlist source is an unchanged local
file — so that neither `check_for_next_playlist` nor the trailing
`check_update(false)` touches the state — the Media returned is exactly
the one built by `timed_source` from `nodes[index]` with the ad flags
set; when the playlist file has vanished, `check_update` replaces the
returned item with its dummy node (see the counterexample). -/
theorem c6_playing_returns_timed_source (env : Env) (config : GlobalConfig)
    (s : ProgState) (p mstr : String) (node cn : Media)
    (hLI : s.stat.list_init = false)
    (hidx : s.index < s.nodes.length)
    (hcfn : check_for_next_playlist env config s = Except.ok s)
    (hp : s.json_path = some p) (hf : env.isFile p = true)
    (hm : env.modTime p = some mstr) (hjm : s.json_mod = some mstr)
    (hnode : s.nodes.get? s.index = some node)
    (hts : timed_source env config node
      (decide (s.index = s.nodes.length - 1)) s.stat = Except.ok cn) :
    ∃ la na, progNext env config s =
      Except.ok
        ({ s with
            current_node := { cn with last_ad := la, next_ad := na }
            index := s.index + 1 },
         { cn with last_ad := la, next_ad := na }) := by
  obtain ⟨la, na, hlna⟩ := last_next_ad_shape { s with current_node := cn }
  refine ⟨la, na, ?_⟩
  have hlen0 : ¬ (s.nodes.length = 0) := by omega
  have hln2 : last_next_ad { s with current_node := cn } =
      { s with current_node := { cn with last_ad := la, next_ad := na } } := by
    rw [hlna]
  have hcu := check_update_unchanged env config false
    { { s with current_node := { cn with last_ad := la, next_ad := na } } with
      index := ({ s with
        current_node := { cn with last_ad := la, next_ad := na } }).index + 1 }
    p mstr hp hf hm hjm
  simp only [progNext, hLI, Bool.false_eq_true, if_false, hcfn, Bind.bind,
    Except.bind]
  rw [if_pos hidx, if_neg hlen0]
  simp only [unwrapO, hnode, Bind.bind, Except.bind, hts, hln2, hcu]
  rfl

set_option maxRecDepth 1000000 in
/-- Witness for C6: the fixture PLAYING state emits the second clip built
by `timed_source` (with ad flags), and the state advances to index 2. -/
theorem c6_witness :
    ∃ la na, progNext envP cfgA stP =
      Except.ok
        ({ stP with
            current_node := { { gen_source envP cfgA clip1 with
              process := some true } with last_ad := la, next_ad := na }
            index := stP.index + 1 },
         { { gen_source envP cfgA clip1 with process := some true } with
            last_ad := la, next_ad := na }) :=
  c6_playing_returns_timed_source envP cfgA stP "/p/f.json" "M1" clip1
    { gen_source envP cfgA clip1 with process := some true }
    rfl (by decide) (by with_unfolding_all rfl) rfl (by decide) rfl rfl rfl
    (by with_unfolding_all rfl)

/-- **C4 counterexample**: in the exhaustion branch with the playlist
source unchanged and `|total_delta| > stop_threshold`, the returned dummy
does *not* have an empty source: `gen_source` replaces the empty source
with the filler pattern. Duration and out are still
`min(|total_delta|, DUMMY_LEN) = 20`. -/
theorem c4_counterexample :
    (check_for_next_playlist envE cfgA stE = Except.ok stE) ∧
    |(get_delta cfgA envE.now cfgA.playlist_start_sec).2| >
      cfgA.stop_threshold ∧
    ((progNext envE cfgA stE).toOption.map
      (fun pr => (pr.2.source, pr.2.duration, pr.2.out)) =
      some ("color=c=colortone:duration=20", 20, 20)) ∧
    "color=c=colortone:duration=20" ≠ "" := by
  refine ⟨?_, ?_, ?_, ?_⟩
  · with_unfolding_all rfl
  · with_unfolding_all decide
  · with_unfolding_all rfl
  · decide

/-- **C4** (amended): when `next()` runs in the PLAYING state with
`index ≥ len(nodes)`, and after `check_for_next_playlist` the playlist
source (`json_path`) is unchanged and `|total_delta|` measured against
today's start exceeds `stop_threshold`, the call returns a dummy Media —
synthesized with an empty source which `gen_source` replaces by the
filler source — whose `duration` and `out` both equal
`min(|total_delta|, DUMMY_LEN)`, appended to `nodes`; otherwise the index
is reset and the first item of `nodes` is re-emitted via `gen_source`. -/
theorem c4_exhaustion_fill_or_reset (env : Env) (config : GlobalConfig)
    (s s1 : ProgState)
    (hLI : s.stat.list_init = false)
    (hidx : ¬ (s.index < s.nodes.length))
    (hcfn : check_for_next_playlist env config s = Except.ok s1) :
    ((s.json_path = s1.json_path →
      |(get_delta config env.now config.playlist_start_sec).2| >
        config.stop_threshold →
      ∃ s' m, progNext env config s = Except.ok (s', m) ∧
        m.duration = min |(get_delta config env.now
          config.playlist_start_sec).2| DUMMY_LEN ∧
        m.out = min |(get_delta config env.now
          config.playlist_start_sec).2| DUMMY_LEN ∧
        m.source = (gen_dummy config (min |(get_delta config env.now
          config.playlist_start_sec).2| DUMMY_LEN)).1 ∧
        s'.nodes = s1.nodes ++ [gen_source env config
          { Media.new s1.index "" with
            «begin» := some env.now
            duration := min |(get_delta config env.now
              config.playlist_start_sec).2| DUMMY_LEN
            out := min |(get_delta config env.now
              config.playlist_start_sec).2| DUMMY_LEN }] ∧
        s'.index = s1.index + 1) ∧
     (¬ (s.json_path = s1.json_path ∧
        |(get_delta config env.now config.playlist_start_sec).2| >
          config.stop_threshold) →
      ∀ n0, s1.nodes.get? 0 = some n0 →
      ∃ s' m na, progNext env config s = Except.ok (s', m) ∧
        s'.index = 1 ∧
        m = { gen_source env config n0 with
          last_ad := s.current_node.last_ad, next_ad := na })) := by
  have hmin : (if |(get_delta config env.now config.playlist_start_sec).2| >
      DUMMY_LEN then DUMMY_LEN
      else |(get_delta config env.now config.playlist_start_sec).2|) =
      min |(get_delta config env.now config.playlist_start_sec).2|
        DUMMY_LEN := by
    rcases le_or_lt |(get_delta config env.now config.playlist_start_sec).2|
      DUMMY_LEN with h | h
    · rw [if_neg (not_lt.2 h), min_eq_left h]
    · rw [if_pos h, min_eq_right h.le]
  constructor
  · intro hpath htd
    simp only [progNext, hLI, Bool.false_eq_true, if_false, hcfn, Bind.bind,
      Except.bind]
    rw [if_neg hidx, if_pos ⟨hpath, htd⟩, hmin]
    obtain ⟨la2, na2, hlna⟩ := last_next_ad_shape
      { s1 with
        current_node := gen_source env config
          { Media.new s1.index "" with
            «begin» := some env.now
            duration := min |(get_delta config env.now
              config.playlist_start_sec).2| DUMMY_LEN
            out := min |(get_delta config env.now
              config.playlist_start_sec).2| DUMMY_LEN }
        nodes := s1.nodes ++ [gen_source env config
          { Media.new s1.index "" with
            «begin» := some env.now
            duration := min |(get_delta config env.now
              config.playlist_start_sec).2| DUMMY_LEN
            out := min |(get_delta config env.now
              config.playlist_start_sec).2| DUMMY_LEN }] }
    rw [hlna]
    refine ⟨_, _, rfl, ?_, ?_, ?_, rfl, rfl⟩
    · simp [add_filter, gen_source, validate_source, add_probe, Media.new]
    · simp [add_filter, gen_source, validate_source, add_probe, Media.new]
    · simp [add_filter, gen_source, validate_source, add_probe, Media.new]
  · intro hnot n0 hn0
    simp only [progNext, hLI, Bool.false_eq_true, if_false, hcfn, Bind.bind,
      Except.bind]
    rw [if_neg hidx, if_neg hnot]
    obtain ⟨la2, na2, hlna⟩ := last_next_ad_shape
      { s1 with index := 0, current_node := gen_source env config n0 }
    simp only [unwrapO, hn0, Bind.bind, Except.bind]
    rw [hlna]
    exact ⟨_, _, na2, rfl, rfl, rfl⟩

set_option maxRecDepth 1000000 in
/-- Witness for C4: the exhausted fixture day (84 500 s remaining) gets a
20-second filler appended and returned. -/
theorem c4_witness :
    ∃ s' m, progNext envE cfgA stE = Except.ok (s', m) ∧
      m.duration = min |(get_delta cfgA envE.now
        cfgA.playlist_start_sec).2| DUMMY_LEN ∧
      m.out = min |(get_delta cfgA envE.now
        cfgA.playlist_start_sec).2| DUMMY_LEN ∧
      m.source = (gen_dummy cfgA (min |(get_delta cfgA envE.now
        cfgA.playlist_start_sec).2| DUMMY_LEN)).1 ∧
      s'.nodes = stE.nodes ++ [gen_source envE cfgA
        { Media.new stE.index "" with
          «begin» := some envE.now
          duration := min |(get_delta cfgA envE.now
            cfgA.playlist_start_sec).2| DUMMY_LEN
          out := min |(get_delta cfgA envE.now
            cfgA.playlist_start_sec).2| DUMMY_LEN }] ∧
      s'.index = stE.index + 1 :=
  (c4_exhaustion_fill_or_reset envE cfgA stE stE rfl (by decide)
      (by with_unfolding_all rfl)).1 rfl (by with_unfolding_all decide)

set_option maxRecDepth 1000000 in
/-- **C9** (code bug): `next()` does *not* always return a Media without
panicking. When `json_path` is an HTTP URL and the HEAD response lacks a
`Last-Modified` header, or the HEAD request itself fails, `check_update`
panics on `unwrap` and the whole `next()` call aborts — contradicting the
spec's propagation policy, which the spec itself flags as an open question
(§9). Evaluated here at two concrete failing inputs. -/
theorem c9_next_panics_on_url_head :
    progNext envU cfgA stU =
      Except.error "check_update: Last-Modified header missing" ∧
    progNext envUfail cfgA stU =
      Except.error "check_update: HEAD request failed" := by
  constructor
  · with_unfolding_all rfl
  · with_unfolding_all rfl

end Playout
